import Mathlib

/-!
Shallow embedding of `backup2db.py` (1nsanedev/backup2db): a CLI utility that
resolves logical iOS filesystem paths and app bundle identifiers into on-disk
locations inside an iTunes-style device backup.

The embedding models:
  * `iOSVersion` with its dotted-string constructor and comparison operators;
  * `is_backup_compatible` over an abstract `Info.plist` state;
  * `find_ios_backup_file` and `get_app_folders_from_backup` over an abstract
    `Manifest.db` state (list of `Files` rows) and an abstract filesystem
    (list of existing paths);
  * `main`, the CLI dispatch, as a function from arguments to an outcome
    (an exit code, or an uncaught Python exception).

Python exceptions that escape a function are modelled explicitly (`raised`
constructors); `None` returns are `Option.none` / dedicated constructors.
-/

namespace Backup2db

/-! ### iOS version: `iOSVersion` dataclass (backup2db.py lines 39-74) -/

/-- The `iOSVersion` frozen dataclass: an (immutable) triple
(major, minor, bugfix). Components parsed by Python `int()` from digit
strings are natural numbers. -/
structure iOSVersion where
  major : Nat
  minor : Nat
  bugfix : Nat
deriving DecidableEq, Repr

/-- Splitting a character list on every occurrence of a dot, exactly as
Python `str.split(".")` behaves for the one-character separator `"."`:
`"" ↦ [""]`, `"a.b" ↦ ["a","b"]`, `"." ↦ ["",""]`. -/
def splitDots : List Char → List (List Char)
  | [] => [[]]
  | c :: rest =>
    let r := splitDots rest
    if c = '.' then [] :: r
    else
      match r with
      | [] => [[c]]
      | h :: t => (c :: h) :: t

/-- The numeric value denoted by a list of decimal digit characters
(the value Python `int()` returns on such input). -/
def decodeDigits (l : List Char) : Nat :=
  l.foldl (fun n c => n * 10 + (c.toNat - 48)) 0

/-- Python `int(s)` on a component string, restricted to the inputs the
claims concern: a nonempty all-digit string parses to its value, anything
else is a `ValueError` (`none`). (Python `int` also tolerates sign marks,
surrounding whitespace and underscores; no claim involves those forms.) -/
def pyInt? (l : List Char) : Option Nat :=
  if l ≠ [] ∧ l.all Char.isDigit then some (decodeDigits l) else none

/-- `iOSVersion.__init__` on a string argument (lines 45-50), over the
string's character list: `parts = major.split(".")`; `major = int(parts[0])`,
`minor = int(parts[1]) if len(parts) > 1 else 0`,
`bugfix = int(parts[2]) if len(parts) > 2 else 0`.
`none` models the `ValueError` raised by `int()` on a non-numeric part.
(`split` never returns an empty list, so the `[]` case is unreachable.) -/
def iOSVersion.ofChars (l : List Char) : Option iOSVersion :=
  match splitDots l with
  | [] => none
  | p0 :: rest => do
    let a ← pyInt? p0
    let b ← match rest with
      | [] => pure 0
      | p1 :: _ => pyInt? p1
    let c ← match rest with
      | _ :: p2 :: _ => pyInt? p2
      | _ => pure 0
    pure ⟨a, b, c⟩

/-- `iOSVersion(s)` for a string `s`. -/
def iOSVersion.ofString (s : String) : Option iOSVersion :=
  iOSVersion.ofChars s.toList

/-- `__eq__` (lines 52-55): tuple equality on (major, minor, bugfix). -/
def iOSVersion.eq (a b : iOSVersion) : Bool :=
  a.major == b.major && a.minor == b.minor && a.bugfix == b.bugfix

/-- `__lt__` (lines 57-60): Python tuple `<`, i.e. lexicographic order on
(major, minor, bugfix). -/
def iOSVersion.lt (a b : iOSVersion) : Bool :=
  decide (a.major < b.major ∨
    (a.major = b.major ∧ (a.minor < b.minor ∨
      (a.minor = b.minor ∧ a.bugfix < b.bugfix))))

/-- `__le__` (lines 62-63): `self.__lt__(other) or self.__eq__(other)`. -/
def iOSVersion.le (a b : iOSVersion) : Bool :=
  a.lt b || a.eq b

/-- `__gt__` (lines 65-68): Python tuple `>`, which holds exactly when the
other tuple is lexicographically `<` this one. -/
def iOSVersion.gt (a b : iOSVersion) : Bool :=
  b.lt a

/-- `__ge__` (lines 70-71): `self.__gt__(other) or self.__eq__(other)`. -/
def iOSVersion.ge (a b : iOSVersion) : Bool :=
  a.gt b || a.eq b

/-! ### Version gate: `is_backup_compatible` (lines 76-101) -/

/-- `TARGET_BACKUP_INFO_KEY = "Product Version"` (line 76). -/
def TARGET_BACKUP_INFO_KEY : String := "Product Version"

/-- `TARGET_BACKUP_MIN_VER = iOSVersion("11.0")` (line 77): the parse
yields the triple (11, 0, 0). -/
def TARGET_BACKUP_MIN_VER : iOSVersion := ⟨11, 0, 0⟩

/-- A value stored in the parsed `Info.plist` dictionary: a string, or any
non-string plist value. -/
inductive PlistValue
  | str (s : String)
  | other
deriving DecidableEq, Repr

/-- The state of `Info.plist` inside the backup directory:
  * `absent`: `os.path.exists` is false (line 85);
  * `unreadable`: the file exists but reading or `plistlib.loads` raises
    (lines 89-94) — unreadable or malformed;
  * `parsed d`: `plistlib.loads` produced the dictionary `d`. -/
inductive PlistState
  | absent
  | unreadable
  | parsed (d : List (String × PlistValue))
deriving DecidableEq, Repr

/-- Python `dict.get(k)`: the value at the first (only) matching key, or
`None` when the key is absent. -/
def plistGet (d : List (String × PlistValue)) (k : String) : Option PlistValue :=
  (d.find? (fun kv => kv.1 == k)).map (fun kv => kv.2)

/-- Outcome of `is_backup_compatible`:
  * `softFail`: returns `(False, None)`;
  * `ok c v`: returns `(c, v)`;
  * `raised`: an exception escapes the function. -/
inductive CompatResult
  | softFail
  | ok (compatible : Bool) (version : iOSVersion)
  | raised
deriving DecidableEq, Repr

/-- `is_backup_compatible` (lines 79-101), over the `Info.plist` state.
Absent file and read/parse failure return `(False, None)` (`softFail`).
Otherwise `iOSVersion(info.get("Product Version"))` is built and compared:
  * key absent (`dict.get` gives `None`) or value not a string: the custom
    `__init__` sets no fields (its body only runs under
    `isinstance(major, str)`), so the later comparison
    `TARGET_BACKUP_MIN_VER <= target_version` raises `AttributeError` —
    this escape is NOT caught (the `try` only wraps the plist load);
  * non-numeric string: `int()` raises `ValueError`, also uncaught;
  * numeric string: returns `(TARGET_BACKUP_MIN_VER <= v, v)`. -/
def is_backup_compatible (plist : PlistState) : CompatResult :=
  match plist with
  | .absent => .softFail
  | .unreadable => .softFail
  | .parsed info =>
    match plistGet info TARGET_BACKUP_INFO_KEY with
    | some (.str s) =>
      match iOSVersion.ofString s with
      | some v => .ok (iOSVersion.le TARGET_BACKUP_MIN_VER v) v
      | none => .raised
    | _ => .raised

/-! ### Manifest database and filesystem model -/

/-- A row of the `Files` table of `Manifest.db`. -/
structure ManifestEntry where
  fileID : String
  domain : String
  relativePath : String
deriving DecidableEq, Repr

/-- The state of `Manifest.db` inside the backup directory:
  * `absent`: `os.path.exists` is false;
  * `badSchema`: the file exists and connects, but executing the query
    raises `sqlite3.OperationalError` (e.g. no `Files` table — a schema
    mismatch);
  * `table rows`: queries succeed; `rows` lists the `Files` rows in the
    order the cursor returns them (the index's otherwise-unspecified
    order). -/
inductive ManifestDB
  | absent
  | badSchema
  | table (rows : List ManifestEntry)
deriving DecidableEq, Repr

/-- `s.startswith("/")`: the first character is the separator. -/
def startsWithSep (s : String) : Bool :=
  s.toList.head? == some '/'

/-- `s.endswith("/")`: the last character is the separator. -/
def endsWithSep (s : String) : Bool :=
  s.toList.getLast? == some '/'

/-- POSIX `os.path.join(a, b)`: `b` if `b` is absolute, otherwise `a ++ b`
when `a` is empty or ends with the separator, otherwise `a ++ "/" ++ b`. -/
def pathJoin (a b : String) : String :=
  if startsWithSep b then b
  else if a = "" ∨ endsWithSep a = true then a ++ b
  else a ++ "/" ++ b

/-- `os.path.exists(p)` over an abstract filesystem given as the list of
existing paths. The empty path never exists (Python returns `False` on
`""`). -/
def pathExists (disk : List String) (p : String) : Bool :=
  !p.isEmpty && disk.contains p

/-- The on-disk location derived from a file identifier:
`os.path.join(backup_dir, file_id[:2], file_id)` (lines 141-142, 196). -/
def backupFilePath (backup_dir file_id : String) : String :=
  pathJoin (pathJoin backup_dir (file_id.take 2)) file_id

/-! ### Path resolver: `find_ios_backup_file` (lines 107-148) -/

/-- The row filter of the path resolver's query (lines 112-116):
`WHERE relativePath = ? OR domain || '-' || relativePath = ?`, both
placeholders bound to the logical path. -/
def pathQueryMatch (ios_path : String) (e : ManifestEntry) : Bool :=
  e.relativePath == ios_path || (e.domain ++ "-" ++ e.relativePath) == ios_path

/-- `find_ios_backup_file(backup_dir, ios_path)` (lines 107-148):
  * `Manifest.db` absent: prints and returns `None`;
  * query raises `sqlite3.OperationalError`: caught (lines 127-132),
    returns `None`;
  * `cur.fetchone()` on no matching row: returns `None` (lines 134-138);
  * otherwise only the first matching row is used; the derived path is
    returned iff it exists on disk, else `None` (lines 140-148).
The function itself never lets an `OperationalError` escape. -/
def find_ios_backup_file (db : ManifestDB) (disk : List String)
    (backup_dir ios_path : String) : Option String :=
  match db with
  | .absent => none
  | .badSchema => none
  | .table rows =>
    match rows.filter (pathQueryMatch ios_path) with
    | [] => none
    | e :: _ =>
      let file_path := backupFilePath backup_dir e.fileID
      if pathExists disk file_path then some file_path else none

/-! ### Bundle resolver: `get_app_folders_from_backup` (lines 151-200) -/

/-- Outcome of `get_app_folders_from_backup`:
  * `raised`: an exception escapes the function (its `cur.execute` is NOT
    wrapped in try/except, unlike the path resolver's);
  * `notFound`: returns `None`;
  * `found ps`: returns the list `ps` of `(backup path, relativePath)`
    pairs. -/
inductive BundleResult
  | raised
  | notFound
  | found (paths : List (String × String))
deriving DecidableEq, Repr

/-- The rows of the bundle resolver's query (lines 157-161):
`WHERE domain = ?`, in cursor order. -/
def domainQuery (rows : List ManifestEntry) (dom : String) : List ManifestEntry :=
  rows.filter (fun e => e.domain == dom)

/-- `get_app_folders_from_backup(backup_dir, bundle_identifier)`
(lines 151-200):
  * `Manifest.db` absent: prints and returns `None` (lines 165-167);
  * query raises (wrong schema): the exception propagates — there is no
    try/except here;
  * exact-domain query first (line 172); if it returns no rows, one retry
    with the identifier prefixed by `"AppDomain-"` (lines 183-186);
  * still no rows: returns `None` (lines 188-191);
  * otherwise each row `(file_id, rel_path)` becomes
    `(os.path.join(backup_dir, file_id[:2], file_id), rel_path)` in row
    order (lines 193-200). The filesystem (`disk`) is in scope but never
    consulted: no existence check is performed. -/
def get_app_folders_from_backup (db : ManifestDB) (disk : List String)
    (backup_dir bundle_identifier : String) : BundleResult :=
  match db with
  | .absent => .notFound
  | .badSchema => .raised
  | .table rows =>
    let rows1 := domainQuery rows bundle_identifier
    let rows2 :=
      if rows1.isEmpty then domainQuery rows ("AppDomain-" ++ bundle_identifier)
      else rows1
    if rows2.isEmpty then .notFound
    else .found (rows2.map (fun e => (backupFilePath backup_dir e.fileID, e.relativePath)))

/-! ### CLI dispatch: `main` (lines 207-270) -/

/-- The parsed command-line arguments: `-d` / `--device-path`
(`args.path`), `-b` / `--bundle-paths` (`args.bundle`), `--backup-path`
(`args.search_path`, defaulting to `"."`). -/
structure Args where
  path : Option String
  bundle : Option String
  search_path : String
deriving DecidableEq, Repr

/-- Outcome of running `main`: the process exits with a code, or a Python
exception propagates uncaught (a crash). -/
inductive MainOutcome
  | exit (code : Int)
  | raised
deriving DecidableEq, Repr

/-- `main` (lines 207-270), after argument parsing, over the backup
directory's state (`plist`, `db`, `disk`):
  * the compatibility check runs first; `(False, _)` exits with `-2` before
    any resolver (lines 245-248); an exception from the check propagates;
  * if `-d` was given, `find_ios_backup_file` runs: a truthy result (a
    nonempty string) exits `0`, otherwise exit `-1` (lines 250-259);
  * otherwise if `-b` was given, `get_app_folders_from_backup` runs: a
    truthy result (a nonempty list) exits `0`, otherwise exit `-1`
    (lines 261-270); an escaping exception propagates;
  * with neither flag, `main` falls through and the process ends normally
    with exit code `0`.
The walrus `if result := ...:` tests Python truthiness, so an empty string
or empty list would be treated as not found (neither is actually
producible by the resolvers). -/
def main (plist : PlistState) (db : ManifestDB) (disk : List String)
    (args : Args) : MainOutcome :=
  match is_backup_compatible plist with
  | .raised => .raised
  | .softFail => .exit (-2)
  | .ok compatible _ =>
    if !compatible then .exit (-2)
    else
      match args.path with
      | some p =>
        match find_ios_backup_file db disk args.search_path p with
        | some fp => if fp.isEmpty then .exit (-1) else .exit 0
        | none => .exit (-1)
      | none =>
        match args.bundle with
        | some b =>
          match get_app_folders_from_backup db disk args.search_path b with
          | .raised => .raised
          | .notFound => .exit (-1)
          | .found ps => if ps.isEmpty then .exit (-1) else .exit 0
        | none => .exit 0

/-! ### Helper lemmas -/

lemma splitDots_noDot (l : List Char) (h : '.' ∉ l) : splitDots l = [l] := by
  induction l with
  | nil => rfl
  | cons c rest ih =>
    have hc : ¬ c = '.' := by rintro rfl; exact h (List.mem_cons_self _ _)
    have hrest : '.' ∉ rest := fun hm => h (List.mem_cons_of_mem _ hm)
    simp [splitDots, hc, ih hrest]

lemma splitDots_append (l1 l2 : List Char) (h : '.' ∉ l1) :
    splitDots (l1 ++ '.' :: l2) = l1 :: splitDots l2 := by
  induction l1 with
  | nil => simp [splitDots]
  | cons c rest ih =>
    have hc : ¬ c = '.' := by rintro rfl; exact h (List.mem_cons_self _ _)
    have hrest : '.' ∉ rest := fun hm => h (List.mem_cons_of_mem _ hm)
    simp [splitDots, hc, ih hrest]

lemma no_dot_of_all_digits (l : List Char) (h : l.all Char.isDigit = true) :
    '.' ∉ l := by
  intro hm
  have hd := List.all_eq_true.mp h '.' hm
  exact absurd hd (by decide)

lemma pyInt?_digits (l : List Char) (h1 : l ≠ []) (h2 : l.all Char.isDigit = true) :
    pyInt? l = some (decodeDigits l) := by
  simp [pyInt?, h1, h2]

/-- A successful path lookup returns a path that exists on disk. -/
lemma find_some_pathExists (db : ManifestDB) (disk : List String)
    (bd p fp : String) (h : find_ios_backup_file db disk bd p = some fp) :
    pathExists disk fp = true := by
  cases db with
  | absent => simp [find_ios_backup_file] at h
  | badSchema => simp [find_ios_backup_file] at h
  | table rows =>
    simp only [find_ios_backup_file] at h
    cases hf : rows.filter (pathQueryMatch p) with
    | nil => rw [hf] at h; simp at h
    | cons e rest =>
      rw [hf] at h
      simp only at h
      by_cases hex : pathExists disk (backupFilePath bd e.fileID) = true
      · simp only [hex, if_true] at h
        cases h
        exact hex
      · simp only [hex, if_false, Bool.false_eq_true] at h
        exact absurd h (by simp [hex])

/-- A successful path lookup never returns the empty string (Python
truthiness of the result is therefore `True`). -/
lemma find_some_not_empty (db : ManifestDB) (disk : List String)
    (bd p fp : String) (h : find_ios_backup_file db disk bd p = some fp) :
    fp.isEmpty = false := by
  have hex := find_some_pathExists db disk bd p fp h
  simp only [pathExists, Bool.and_eq_true, Bool.not_eq_true'] at hex
  exact hex.1

/-- A successful bundle lookup returns a nonempty list (Python truthiness
of the result is therefore `True`). -/
lemma found_not_empty (db : ManifestDB) (disk : List String)
    (bd ident : String) (ps : List (String × String))
    (h : get_app_folders_from_backup db disk bd ident = .found ps) :
    ps.isEmpty = false := by
  cases db with
  | absent => simp [get_app_folders_from_backup] at h
  | badSchema => simp [get_app_folders_from_backup] at h
  | table rows =>
    simp only [get_app_folders_from_backup] at h
    by_cases he : (if (domainQuery rows ident).isEmpty
        then domainQuery rows ("AppDomain-" ++ ident)
        else domainQuery rows ident).isEmpty = true
    · rw [if_pos he] at h; cases h
    · rw [if_neg he] at h
      rw [Bool.not_eq_true] at he
      cases h
      rw [List.isEmpty_eq_false] at he ⊢
      simp only [ne_eq, List.map_eq_nil_iff]
      exact he

/-! ### Claim theorems -/

/-- Strict lexicographic order on the (major, minor, bugfix) triple, as the
spec's §3 describes the Version order. -/
def tripleLexLt (a b : iOSVersion) : Prop :=
  a.major < b.major ∨
    (a.major = b.major ∧ (a.minor < b.minor ∨
      (a.minor = b.minor ∧ a.bugfix < b.bugfix)))

/-- C8: the operators `eq`/`lt`/`le`/`gt`/`ge` of `iOSVersion` all coincide
with (the reflexive closure / dual of) strict lexicographic comparison on
the triple (major, minor, bugfix); `le` is total, antisymmetric and
transitive (a total order); and `11.0.0 <= 11.0.0`, `10.3.0 <= 11.0.0`
hold while `12.0.0 <= 11.0.0` does not. -/
theorem version_order_is_lex_total_order :
    (∀ a b : iOSVersion, a.eq b = true ↔ a = b) ∧
    (∀ a b : iOSVersion, a.lt b = true ↔ tripleLexLt a b) ∧
    (∀ a b : iOSVersion, a.le b = true ↔ (tripleLexLt a b ∨ a = b)) ∧
    (∀ a b : iOSVersion, a.gt b = true ↔ tripleLexLt b a) ∧
    (∀ a b : iOSVersion, a.ge b = true ↔ (tripleLexLt b a ∨ a = b)) ∧
    (∀ a b : iOSVersion, a.le b = true ∨ b.le a = true) ∧
    (∀ a b : iOSVersion, a.le b = true → b.le a = true → a = b) ∧
    (∀ a b c : iOSVersion, a.le b = true → b.le c = true → a.le c = true) ∧
    iOSVersion.le ⟨11, 0, 0⟩ ⟨11, 0, 0⟩ = true ∧
    iOSVersion.le ⟨10, 3, 0⟩ ⟨11, 0, 0⟩ = true ∧
    iOSVersion.le ⟨12, 0, 0⟩ ⟨11, 0, 0⟩ = false := by
  refine ⟨?_, ?_, ?_, ?_, ?_, ?_, ?_, ?_, by decide, by decide, by decide⟩
  · rintro ⟨a1, a2, a3⟩ ⟨b1, b2, b3⟩
    simp [iOSVersion.eq, and_assoc]
  · rintro ⟨a1, a2, a3⟩ ⟨b1, b2, b3⟩
    simp [iOSVersion.lt, tripleLexLt]
  · rintro ⟨a1, a2, a3⟩ ⟨b1, b2, b3⟩
    simp only [iOSVersion.le, iOSVersion.lt, iOSVersion.eq, tripleLexLt,
      Bool.or_eq_true, decide_eq_true_eq, Bool.and_eq_true, beq_iff_eq,
      iOSVersion.mk.injEq]
    tauto
  · rintro ⟨a1, a2, a3⟩ ⟨b1, b2, b3⟩
    simp [iOSVersion.gt, iOSVersion.lt, tripleLexLt]
  · rintro ⟨a1, a2, a3⟩ ⟨b1, b2, b3⟩
    simp only [iOSVersion.ge, iOSVersion.gt, iOSVersion.lt, iOSVersion.eq,
      tripleLexLt, Bool.or_eq_true, decide_eq_true_eq, Bool.and_eq_true,
      beq_iff_eq, iOSVersion.mk.injEq]
    tauto
  · rintro ⟨a1, a2, a3⟩ ⟨b1, b2, b3⟩
    simp only [iOSVersion.le, iOSVersion.lt, iOSVersion.eq,
      Bool.or_eq_true, decide_eq_true_eq, Bool.and_eq_true, beq_iff_eq]
    omega
  · rintro ⟨a1, a2, a3⟩ ⟨b1, b2, b3⟩ h1 h2
    simp only [iOSVersion.le, iOSVersion.lt, iOSVersion.eq,
      Bool.or_eq_true, decide_eq_true_eq, Bool.and_eq_true, beq_iff_eq] at h1 h2
    simp only [iOSVersion.mk.injEq]
    omega
  · rintro ⟨a1, a2, a3⟩ ⟨b1, b2, b3⟩ ⟨c1, c2, c3⟩ h1 h2
    simp only [iOSVersion.le, iOSVersion.lt, iOSVersion.eq,
      Bool.or_eq_true, decide_eq_true_eq, Bool.and_eq_true, beq_iff_eq] at h1 h2 ⊢
    omega

/-- Witness for C8: transitivity and antisymmetry applied at concrete
versions. -/
theorem version_order_is_lex_total_order_witness :
    iOSVersion.le ⟨1, 0, 0⟩ ⟨3, 0, 0⟩ = true ∧
    (⟨2, 5, 7⟩ : iOSVersion) = ⟨2, 5, 7⟩ := by
  constructor
  · exact version_order_is_lex_total_order.2.2.2.2.2.2.2.1
      ⟨1, 0, 0⟩ ⟨2, 0, 0⟩ ⟨3, 0, 0⟩ (by decide) (by decide)
  · exact version_order_is_lex_total_order.2.2.2.2.2.2.1
      ⟨2, 5, 7⟩ ⟨2, 5, 7⟩ (by decide) (by decide)

/-- C7: for every dotted version string `"X"`, `"X.Y"`, `"X.Y.Z"` whose
components are (nonempty) digit strings, the `iOSVersion` constructor
yields the triple of their values, missing components defaulting to 0. -/
theorem version_parse_dotted (l1 l2 l3 : List Char)
    (h1n : l1 ≠ []) (h1d : l1.all Char.isDigit = true)
    (h2n : l2 ≠ []) (h2d : l2.all Char.isDigit = true)
    (h3n : l3 ≠ []) (h3d : l3.all Char.isDigit = true) :
    iOSVersion.ofChars l1 = some ⟨decodeDigits l1, 0, 0⟩ ∧
    iOSVersion.ofChars (l1 ++ '.' :: l2) =
      some ⟨decodeDigits l1, decodeDigits l2, 0⟩ ∧
    iOSVersion.ofChars (l1 ++ '.' :: (l2 ++ '.' :: l3)) =
      some ⟨decodeDigits l1, decodeDigits l2, decodeDigits l3⟩ := by
  have d1 := no_dot_of_all_digits l1 h1d
  have d2 := no_dot_of_all_digits l2 h2d
  have d3 := no_dot_of_all_digits l3 h3d
  refine ⟨?_, ?_, ?_⟩
  · simp [iOSVersion.ofChars, splitDots_noDot l1 d1, pyInt?_digits l1 h1n h1d]
  · simp [iOSVersion.ofChars, splitDots_append l1 l2 d1,
      splitDots_noDot l2 d2, pyInt?_digits l1 h1n h1d, pyInt?_digits l2 h2n h2d]
  · simp [iOSVersion.ofChars, splitDots_append l1 (l2 ++ '.' :: l3) d1,
      splitDots_append l2 l3 d2, splitDots_noDot l3 d3,
      pyInt?_digits l1 h1n h1d, pyInt?_digits l2 h2n h2d,
      pyInt?_digits l3 h3n h3d]

/-- Witness for C7: `"12.1.2"` parses to (12, 1, 2) and `"11.0"` to
(11, 0, 0). -/
theorem version_parse_dotted_witness :
    iOSVersion.ofString "12.1.2" = some ⟨12, 1, 2⟩ ∧
    iOSVersion.ofString "11.0" = some ⟨11, 0, 0⟩ := by
  have h := version_parse_dotted ['1', '2'] ['1'] ['2']
    (by decide) (by decide) (by decide) (by decide) (by decide) (by decide)
  have h2 := version_parse_dotted ['1', '1'] ['0'] ['0']
    (by decide) (by decide) (by decide) (by decide) (by decide) (by decide)
  constructor
  · have := h.2.2
    simpa [iOSVersion.ofString, decodeDigits] using this
  · have := h2.2.1
    simpa [iOSVersion.ofString, decodeDigits] using this

/-- C3 (code bug): the soft-fail contract only holds for an absent,
unreadable or unparsable `Info.plist`. When the plist parses but the
`"Product Version"` key is absent (or its value is not a string), the
field-less `iOSVersion` makes the comparison raise `AttributeError`; a
non-numeric value makes `int()` raise `ValueError`. Both escape the
function instead of producing `(False, None)`. -/
theorem compat_soft_fail_is_violated :
    is_backup_compatible .absent = .softFail ∧
    is_backup_compatible .unreadable = .softFail ∧
    is_backup_compatible (.parsed [("Device Name", .str "x")]) = .raised ∧
    is_backup_compatible (.parsed [("Product Version", .str "beta")]) = .raised ∧
    is_backup_compatible (.parsed [("Product Version", .other)]) = .raised := by
  refine ⟨rfl, rfl, by decide, by decide, by decide⟩

/-- C6: the compatibility predicate is
`TARGET_BACKUP_MIN_VER <= parsedVersion` with the minimum fixed at
(11, 0, 0); a plist reporting `"10.0"` yields `(False, (10,0,0))` and one
reporting `"12.1.2"` yields `(True, (12,1,2))`. -/
theorem compat_predicate_min_11 :
    TARGET_BACKUP_MIN_VER = ⟨11, 0, 0⟩ ∧
    (∀ (s : String) (v : iOSVersion), iOSVersion.ofString s = some v →
      is_backup_compatible (.parsed [(TARGET_BACKUP_INFO_KEY, .str s)]) =
        .ok (iOSVersion.le TARGET_BACKUP_MIN_VER v) v) ∧
    is_backup_compatible (.parsed [("Product Version", .str "10.0")]) =
      .ok false ⟨10, 0, 0⟩ ∧
    is_backup_compatible (.parsed [("Product Version", .str "12.1.2")]) =
      .ok true ⟨12, 1, 2⟩ := by
  refine ⟨rfl, ?_, by decide, by decide⟩
  intro s v h
  simp [is_backup_compatible, plistGet, h]

/-- Witness for C6: the predicate applied to the parsed `"11.0.0"`. -/
theorem compat_predicate_min_11_witness :
    is_backup_compatible (.parsed [(TARGET_BACKUP_INFO_KEY, .str "11.0.0")]) =
      .ok true ⟨11, 0, 0⟩ := by
  have h := compat_predicate_min_11.2.1 "11.0.0" ⟨11, 0, 0⟩ (by decide)
  have h2 : iOSVersion.le TARGET_BACKUP_MIN_VER ⟨11, 0, 0⟩ = true := by decide
  rw [h2] at h
  exact h

/-- C1: the path resolver's query matches exactly the manifest entries
whose `relativePath` equals the logical path or whose
`domain ++ "-" ++ relativePath` equals it; on multiple matches only the
first returned row determines the outcome; and in the success case the
returned path is `{backupDir}/{fileID[:2]}/{fileID}` (for separator-free,
well-formed components) and exists on disk. -/
theorem find_ios_backup_file_query_first_row :
    (∀ (p : String) (e : ManifestEntry), pathQueryMatch p e = true ↔
        (e.relativePath = p ∨ e.domain ++ "-" ++ e.relativePath = p)) ∧
    (∀ rows disk bd p (e : ManifestEntry) rest,
        rows.filter (pathQueryMatch p) = e :: rest →
        find_ios_backup_file (.table rows) disk bd p =
          (if pathExists disk (backupFilePath bd e.fileID) = true
           then some (backupFilePath bd e.fileID) else none)) ∧
    (∀ bd fid : String, bd ≠ "" → endsWithSep bd = false →
        startsWithSep (fid.take 2) = false → startsWithSep fid = false →
        bd ++ "/" ++ fid.take 2 ≠ "" →
        endsWithSep (bd ++ "/" ++ fid.take 2) = false →
        backupFilePath bd fid = bd ++ "/" ++ fid.take 2 ++ "/" ++ fid) ∧
    (∀ rows disk bd p fp, find_ios_backup_file (.table rows) disk bd p = some fp →
        ∃ (e : ManifestEntry) (rest : List ManifestEntry),
          rows.filter (pathQueryMatch p) = e :: rest ∧
          fp = backupFilePath bd e.fileID ∧ pathExists disk fp = true) := by
  refine ⟨?_, ?_, ?_, ?_⟩
  · intro p e
    simp [pathQueryMatch]
  · intro rows disk bd p e rest h
    simp [find_ios_backup_file, h]
  · intro bd fid hbe hbs hts hfs hje hjs
    simp [backupFilePath, pathJoin, hbe, hbs, hts, hfs, hje, hjs]
  · intro rows disk bd p fp h
    have hex := find_some_pathExists (.table rows) disk bd p fp h
    simp only [find_ios_backup_file] at h
    cases hf : rows.filter (pathQueryMatch p) with
    | nil => rw [hf] at h; simp at h
    | cons e rest =>
      rw [hf] at h
      simp only at h
      refine ⟨e, rest, rfl, ?_, hex⟩
      by_cases hx : pathExists disk (backupFilePath bd e.fileID) = true
      · simp only [hx, if_true] at h
        cases h
        rfl
      · rw [if_neg hx] at h
        cases h

/-- Witness for C1: a one-row manifest, a relativePath match, the derived
path present on disk; and the path-shape equation at concrete components. -/
theorem find_ios_backup_file_query_first_row_witness :
    find_ios_backup_file
        (.table [⟨"ab12cd", "HomeDomain", "Library/SMS/sms.db"⟩])
        ["bk/ab/ab12cd"] "bk" "Library/SMS/sms.db" = some "bk/ab/ab12cd" ∧
    backupFilePath "bk" "ab12cd" = "bk" ++ "/" ++ "ab" ++ "/" ++ "ab12cd" ∧
    pathQueryMatch "HomeDomain-Library/SMS/sms.db"
      ⟨"ab12cd", "HomeDomain", "Library/SMS/sms.db"⟩ = true := by
  refine ⟨?_, ?_, ?_⟩
  · have h := find_ios_backup_file_query_first_row.2.1
      [⟨"ab12cd", "HomeDomain", "Library/SMS/sms.db"⟩] ["bk/ab/ab12cd"]
      "bk" "Library/SMS/sms.db" ⟨"ab12cd", "HomeDomain", "Library/SMS/sms.db"⟩
      [] (by decide)
    rw [h]
    decide
  · have h := find_ios_backup_file_query_first_row.2.2.1 "bk" "ab12cd"
      (by decide) (by decide) (by decide) (by decide) (by decide) (by decide)
    simpa using h
  · exact (find_ios_backup_file_query_first_row.1
      "HomeDomain-Library/SMS/sms.db"
      ⟨"ab12cd", "HomeDomain", "Library/SMS/sms.db"⟩).mpr (by decide)

/-- C2: the bundle resolver matches `domain = identifier` first; on zero
rows it retries exactly once with the `"AppDomain-"`-prefixed identifier;
on zero rows again it returns null; otherwise it returns each matching
row's `({backupDir}/{fileID[:2]}/{fileID}, relativePath)` pair in row
order; and the outcome never depends on what exists on disk. -/
theorem get_app_folders_query_retry :
    (∀ (rows : List ManifestEntry) (e : ManifestEntry) (dom : String),
        e ∈ domainQuery rows dom ↔ (e ∈ rows ∧ e.domain = dom)) ∧
    (∀ rows disk bd ident, domainQuery rows ident ≠ [] →
        get_app_folders_from_backup (.table rows) disk bd ident =
          .found ((domainQuery rows ident).map
            (fun e => (backupFilePath bd e.fileID, e.relativePath)))) ∧
    (∀ rows disk bd ident, domainQuery rows ident = [] →
        domainQuery rows ("AppDomain-" ++ ident) ≠ [] →
        get_app_folders_from_backup (.table rows) disk bd ident =
          .found ((domainQuery rows ("AppDomain-" ++ ident)).map
            (fun e => (backupFilePath bd e.fileID, e.relativePath)))) ∧
    (∀ rows disk bd ident, domainQuery rows ident = [] →
        domainQuery rows ("AppDomain-" ++ ident) = [] →
        get_app_folders_from_backup (.table rows) disk bd ident = .notFound) ∧
    (∀ db d1 d2 bd ident,
        get_app_folders_from_backup db d1 bd ident =
          get_app_folders_from_backup db d2 bd ident) := by
  refine ⟨?_, ?_, ?_, ?_, ?_⟩
  · intro rows e dom
    simp [domainQuery, List.mem_filter]
  · intro rows disk bd ident h
    have he : (domainQuery rows ident).isEmpty = false :=
      List.isEmpty_eq_false.mpr h
    simp [get_app_folders_from_backup, he]
  · intro rows disk bd ident h1 h2
    have he1 : (domainQuery rows ident).isEmpty = true := by
      rw [h1]; rfl
    have he2 : (domainQuery rows ("AppDomain-" ++ ident)).isEmpty = false :=
      List.isEmpty_eq_false.mpr h2
    simp [get_app_folders_from_backup, he1, he2]
  · intro rows disk bd ident h1 h2
    have he1 : (domainQuery rows ident).isEmpty = true := by
      rw [h1]; rfl
    have he2 : (domainQuery rows ("AppDomain-" ++ ident)).isEmpty = true := by
      rw [h2]; rfl
    simp [get_app_folders_from_backup, he1, he2]
  · intro db d1 d2 bd ident
    cases db <;> rfl

/-- Witness for C2: the spec's §8 scenario — querying
`"com.facebook.Facebook"` against a manifest holding only domain
`AppDomain-com.facebook.Facebook` succeeds via the retry; an unknown
identifier yields null. -/
theorem get_app_folders_query_retry_witness :
    get_app_folders_from_backup
        (.table [⟨"ab12cd", "AppDomain-com.facebook.Facebook", "Documents/a"⟩])
        [] "bk" "com.facebook.Facebook" =
      .found [("bk/ab/ab12cd", "Documents/a")] ∧
    get_app_folders_from_backup
        (.table [⟨"ab12cd", "AppDomain-com.facebook.Facebook", "Documents/a"⟩])
        [] "bk" "com.nothing.here" = .notFound := by
  constructor
  · have h := get_app_folders_query_retry.2.2.1
      [⟨"ab12cd", "AppDomain-com.facebook.Facebook", "Documents/a"⟩]
      [] "bk" "com.facebook.Facebook" (by decide) (by decide)
    rw [h]
    decide
  · exact get_app_folders_query_retry.2.2.2.1
      [⟨"ab12cd", "AppDomain-com.facebook.Facebook", "Documents/a"⟩]
      [] "bk" "com.nothing.here" (by decide) (by decide)

/-- C4: the path resolver returns null (never an error) when `Manifest.db`
is absent, when the query raises `sqlite3.OperationalError` (schema
mismatch), when no row matches, and when the first matching row's derived
path does not exist on disk; and a path is only ever returned when it
exists on disk. -/
theorem find_ios_backup_file_null_cases :
    (∀ disk bd p, find_ios_backup_file .absent disk bd p = none) ∧
    (∀ disk bd p, find_ios_backup_file .badSchema disk bd p = none) ∧
    (∀ rows disk bd p, rows.filter (pathQueryMatch p) = [] →
        find_ios_backup_file (.table rows) disk bd p = none) ∧
    (∀ rows disk bd p (e : ManifestEntry) rest,
        rows.filter (pathQueryMatch p) = e :: rest →
        pathExists disk (backupFilePath bd e.fileID) = false →
        find_ios_backup_file (.table rows) disk bd p = none) ∧
    (∀ db disk bd p fp, find_ios_backup_file db disk bd p = some fp →
        pathExists disk fp = true) := by
  refine ⟨?_, ?_, ?_, ?_, ?_⟩
  · intro disk bd p; rfl
  · intro disk bd p; rfl
  · intro rows disk bd p h
    simp [find_ios_backup_file, h]
  · intro rows disk bd p e rest h hex
    simp [find_ios_backup_file, h, hex]
  · exact find_some_pathExists

/-- Witness for C4: no-match and missing-file cases at concrete inputs. -/
theorem find_ios_backup_file_null_cases_witness :
    find_ios_backup_file (.table [⟨"ab12cd", "HomeDomain", "sms.db"⟩])
      ["bk/ab/ab12cd"] "bk" "nonexistent.db" = none ∧
    find_ios_backup_file (.table [⟨"ab12cd", "HomeDomain", "sms.db"⟩])
      [] "bk" "sms.db" = none := by
  constructor
  · exact find_ios_backup_file_null_cases.2.2.1
      [⟨"ab12cd", "HomeDomain", "sms.db"⟩] ["bk/ab/ab12cd"] "bk"
      "nonexistent.db" (by decide)
  · exact find_ios_backup_file_null_cases.2.2.2.1
      [⟨"ab12cd", "HomeDomain", "sms.db"⟩] [] "bk" "sms.db"
      ⟨"ab12cd", "HomeDomain", "sms.db"⟩ [] (by decide) (by decide)

/-- C5 (code bug): exceptions do escape the program. With a compatible
backup, running the bundle resolver (`-b`) against a `Manifest.db` whose
schema lacks the `Files` table raises `sqlite3.OperationalError` uncaught
(the bundle resolver's `cur.execute` has no try/except). And an
`Info.plist` that parses but lacks the `"Product Version"` key makes the
compatibility check raise `AttributeError` uncaught, for any argument
combination. -/
theorem uncaught_exceptions_exist :
    main (.parsed [("Product Version", .str "12.0")]) .badSchema []
        ⟨none, some "com.example.app", "."⟩ = .raised ∧
    main (.parsed [("Device Name", .str "x")]) .absent []
        ⟨none, none, "."⟩ = .raised := by
  refine ⟨by decide, by decide⟩

/-- C9: exit codes of the CLI. `0` when a lookup succeeds; `-1` when a
lookup ran but found nothing; `-2` when the compatibility gate fails
(soft-fail or version below the minimum) — in which case no resolver runs,
so the outcome is independent of the manifest and the filesystem; and with
neither lookup flag a compatible backup exits `0` with no resolver
involved (again independent of manifest and filesystem). -/
theorem main_exit_codes :
    (∀ plist db disk args, is_backup_compatible plist = .softFail →
        main plist db disk args = .exit (-2)) ∧
    (∀ plist db disk args (v : iOSVersion),
        is_backup_compatible plist = .ok false v →
        main plist db disk args = .exit (-2)) ∧
    (∀ plist db disk args (v : iOSVersion),
        (is_backup_compatible plist = .softFail ∨
         is_backup_compatible plist = .ok false v) →
        ∀ db2 disk2, main plist db disk args = main plist db2 disk2 args) ∧
    (∀ plist db disk sp p b fp (v : iOSVersion),
        is_backup_compatible plist = .ok true v →
        find_ios_backup_file db disk sp p = some fp →
        main plist db disk ⟨some p, b, sp⟩ = .exit 0) ∧
    (∀ plist db disk sp p b (v : iOSVersion),
        is_backup_compatible plist = .ok true v →
        find_ios_backup_file db disk sp p = none →
        main plist db disk ⟨some p, b, sp⟩ = .exit (-1)) ∧
    (∀ plist db disk sp b ps (v : iOSVersion),
        is_backup_compatible plist = .ok true v →
        get_app_folders_from_backup db disk sp b = .found ps →
        main plist db disk ⟨none, some b, sp⟩ = .exit 0) ∧
    (∀ plist db disk sp b (v : iOSVersion),
        is_backup_compatible plist = .ok true v →
        get_app_folders_from_backup db disk sp b = .notFound →
        main plist db disk ⟨none, some b, sp⟩ = .exit (-1)) ∧
    (∀ plist db disk sp (v : iOSVersion),
        is_backup_compatible plist = .ok true v →
        main plist db disk ⟨none, none, sp⟩ = .exit 0 ∧
        ∀ db2 disk2, main plist db disk ⟨none, none, sp⟩ =
          main plist db2 disk2 ⟨none, none, sp⟩) := by
  refine ⟨?_, ?_, ?_, ?_, ?_, ?_, ?_, ?_⟩
  · intro plist db disk args h
    simp [main, h]
  · intro plist db disk args v h
    simp [main, h]
  · intro plist db disk args v h db2 disk2
    rcases h with h | h <;> simp [main, h]
  · intro plist db disk sp p b fp v hc hf
    have hne := find_some_not_empty db disk sp p fp hf
    simp [main, hc, hf, hne]
  · intro plist db disk sp p b v hc hf
    simp [main, hc, hf]
  · intro plist db disk sp b ps v hc hg
    have hne := found_not_empty db disk sp b ps hg
    simp [main, hc, hg, hne]
  · intro plist db disk sp b v hc hg
    simp [main, hc, hg]
  · intro plist db disk sp v hc
    exact ⟨by simp [main, hc], fun db2 disk2 => by simp [main, hc]⟩

/-- Witness for C9: concrete runs hitting exit codes 0 (path found),
-1 (path not found), -2 (incompatible), and the no-flag exit 0. -/
theorem main_exit_codes_witness :
    main (.parsed [("Product Version", .str "12.0")])
        (.table [⟨"ab12cd", "HomeDomain", "sms.db"⟩]) ["bk/ab/ab12cd"]
        ⟨some "sms.db", none, "bk"⟩ = .exit 0 ∧
    main (.parsed [("Product Version", .str "12.0")])
        (.table []) [] ⟨some "sms.db", none, "bk"⟩ = .exit (-1) ∧
    main (.parsed [("Product Version", .str "10.0")])
        (.table []) [] ⟨some "sms.db", none, "bk"⟩ = .exit (-2) ∧
    main (.parsed [("Product Version", .str "12.0")])
        (.table []) [] ⟨none, none, "bk"⟩ = .exit 0 := by
  refine ⟨?_, ?_, ?_, ?_⟩
  · exact main_exit_codes.2.2.2.1
      (.parsed [("Product Version", .str "12.0")])
      (.table [⟨"ab12cd", "HomeDomain", "sms.db"⟩]) ["bk/ab/ab12cd"]
      "bk" "sms.db" none "bk/ab/ab12cd" ⟨12, 0, 0⟩ (by decide) (by decide)
  · exact main_exit_codes.2.2.2.2.1
      (.parsed [("Product Version", .str "12.0")])
      (.table []) [] "bk" "sms.db" none ⟨12, 0, 0⟩ (by decide) (by decide)
  · exact main_exit_codes.2.1
      (.parsed [("Product Version", .str "10.0")])
      (.table []) [] ⟨some "sms.db", none, "bk"⟩ ⟨10, 0, 0⟩ (by decide)
  · exact (main_exit_codes.2.2.2.2.2.2.2
      (.parsed [("Product Version", .str "12.0")])
      (.table []) [] "bk" ⟨12, 0, 0⟩ (by decide)).1

/-- C10: at most one resolver runs per invocation; when both `-d` and `-b`
are supplied, the path resolver runs and the bundle argument is ignored
entirely — the outcome equals that of the same invocation without `-b`,
for every backup state. -/
theorem main_path_flag_wins (plist : PlistState) (db : ManifestDB)
    (disk : List String) (sp p b : String) :
    main plist db disk ⟨some p, some b, sp⟩ =
      main plist db disk ⟨some p, none, sp⟩ := by
  cases h : is_backup_compatible plist <;> simp [main, h]

end Backup2db
